import Mathlib

/-
  Verification of the Poseidon maritime-domain-awareness engine.

  Shallow embedding of the parts of the system the checked properties
  concern:
  * the PostGIS schema and its `upsert_latest_position` trigger
    (src/unnamed/part_014),
  * the spoof-signal enum and forensics tables (src/unnamed/part_016),
  * the SAR detection tables (src/unnamed/part_015) and the map's
    matched/ghost split (src/unnamed/part_012),
  * the frontend vessel store (src/unnamed/part_001, part_000) and the
    map search filter (src/unnamed/part_012),
  * the fusion / risk display thresholds
    (src/frontend/src/components/Panels/FusionPanel.tsx, part_009,
    src/frontend/src/hooks/useWatchlist.ts, part_004).

  Machine reals (SQL REAL, JS number) are modelled as rationals; SQL
  BIGINT keys as Nat; timestamps as integers; JS strings as lists of
  characters.  Backend engine passes that are not part of the sources
  (gap detector, anomaly flagger, fusion scorer, risk scorer) are
  modelled from the specification; each such definition is marked
  `Modelled from the spec:` in its doc comment.
-/

namespace Poseidon

/-! ### SAR detections (src/unnamed/part_015 `sar_detections`,
     src/unnamed/part_012 `matchedDetections` / `unmatchedDetections`) -/

/-- A row of `sar_detections` as delivered to the frontend
(`SarDetection` interface in the vessel store, src/unnamed/part_001). -/
structure SarDetection where
  id : Nat
  sceneId : Nat
  lon : ℚ
  lat : ℚ
  rcsDb : Option ℚ
  confidence : Option ℚ
  matched : Bool
deriving DecidableEq

/-- `sarDetections.filter((d) => d.matched)` (src/unnamed/part_012). -/
def matchedDetections (ds : List SarDetection) : List SarDetection :=
  ds.filter (fun d => d.matched)

/-- `sarDetections.filter((d) => !d.matched)` (src/unnamed/part_012). -/
def unmatchedDetections (ds : List SarDetection) : List SarDetection :=
  ds.filter (fun d => !d.matched)

/-- A concrete matched SAR detection. -/
def sampleSarDetection : SarDetection :=
  { id := 1, sceneId := 1, lon := 3, lat := 4, rcsDb := none,
    confidence := some (9/10), matched := true }

/-! ### Latest-position trigger (src/unnamed/part_014
     `upsert_latest_position` / `latest_vessel_positions`) -/

/-- Static vessel metadata joined in by the trigger
(`SELECT name, ship_type, destination FROM vessels WHERE mmsi = NEW.mmsi`). -/
structure VesselMeta where
  name : Option (List Char)
  shipType : List Char
  destination : Option (List Char)
deriving DecidableEq

/-- A row inserted into `vessel_positions`. -/
structure PositionInsert where
  mmsi : Nat
  lon : ℚ
  lat : ℚ
  sog : Option ℚ
  cog : Option ℚ
  heading : Option Int
  timestamp : Int
deriving DecidableEq

/-- A row of `latest_vessel_positions` (keyed by its `mmsi` PRIMARY KEY,
which is the index into `LatestTable`). -/
structure LatestPosition where
  lon : ℚ
  lat : ℚ
  sog : Option ℚ
  cog : Option ℚ
  heading : Option Int
  timestamp : Int
  name : Option (List Char)
  shipType : Option (List Char)
  destination : Option (List Char)
deriving DecidableEq

/-- The `latest_vessel_positions` table: at most one row per mmsi
(PRIMARY KEY). -/
def LatestTable := Nat → Option LatestPosition

/-- The row the trigger builds from the inserted position and the
joined vessel metadata. -/
def latestRowOf (vessels : Nat → Option VesselMeta) (p : PositionInsert) :
    LatestPosition :=
  { lon := p.lon, lat := p.lat, sog := p.sog, cog := p.cog,
    heading := p.heading, timestamp := p.timestamp,
    name := (vessels p.mmsi).bind VesselMeta.name,
    shipType := (vessels p.mmsi).map VesselMeta.shipType,
    destination := (vessels p.mmsi).bind VesselMeta.destination }

/-- The trigger body: `INSERT ... ON CONFLICT (mmsi) DO UPDATE SET ...
WHERE EXCLUDED.timestamp > latest_vessel_positions.timestamp`.  A fresh
mmsi inserts unconditionally; an existing row is replaced only when the
incoming timestamp is strictly greater. -/
def upsert_latest_position (vessels : Nat → Option VesselMeta)
    (t : LatestTable) (p : PositionInsert) : LatestTable :=
  fun m =>
    if m = p.mmsi then
      match t p.mmsi with
      | none => some (latestRowOf vessels p)
      | some r =>
        if r.timestamp < p.timestamp then some (latestRowOf vessels p)
        else some r
    else t m

/-- Effect of a whole sequence of inserts into `vessel_positions`
(the trigger fires once per inserted row, in order). -/
def insertPositions (vessels : Nat → Option VesselMeta)
    (t : LatestTable) (ps : List PositionInsert) : LatestTable :=
  ps.foldl (upsert_latest_position vessels) t

/-- Concrete instantiation of `latest_position_timestamp_monotone`:
a vessel table holding one row at timestamp 5 for mmsi 7, hit by an
insert for mmsi 7 with timestamp 3 (older), stays unchanged. -/
def sampleLatestRow : LatestPosition :=
  { lon := 1, lat := 2, sog := none, cog := none, heading := none,
    timestamp := 5, name := none, shipType := none, destination := none }

/-- A one-row concrete `latest_vessel_positions` table. -/
def sampleLatestTable : LatestTable :=
  fun m => if m = 7 then some sampleLatestRow else none

/-- A concrete out-of-order insert (mmsi 7, timestamp 3 < stored 5). -/
def sampleStaleInsert : PositionInsert :=
  { mmsi := 7, lon := 3, lat := 4, sog := none, cog := none,
    heading := none, timestamp := 3 }

/-! ### Dark-vessel alerts (src/unnamed/part_014 `dark_vessel_alerts`;
     gap-detector operations modelled from the spec §4.1) -/

/-- The `alert_status` enum of the schema. -/
inductive AlertStatus where
  | active
  | resolved
deriving DecidableEq

/-- A row of `dark_vessel_alerts` (src/unnamed/part_014, lines 117-135). -/
structure DarkVesselAlert where
  mmsi : Nat
  status : AlertStatus
  lastKnownLon : ℚ
  lastKnownLat : ℚ
  predictedLon : Option ℚ
  predictedLat : Option ℚ
  gapHours : ℚ
  searchRadiusNm : ℚ
deriving DecidableEq

/-- The vessel-dependent payload a gap-detector pass writes into an
alert: dead-reckoned point, elapsed gap and search radius. -/
structure GapProjection where
  lastKnownLon : ℚ
  lastKnownLat : ℚ
  predictedLon : ℚ
  predictedLat : ℚ
  gapHours : ℚ
  searchRadiusNm : ℚ
deriving DecidableEq

/-- Whether an alert row is the active alert of vessel `m`. -/
def isActiveAlertFor (m : Nat) (a : DarkVesselAlert) : Bool :=
  decide (a.mmsi = m ∧ a.status = AlertStatus.active)

/-- Number of active alert rows for vessel `m`. -/
def activeAlertCount (st : List DarkVesselAlert) (m : Nat) : Nat :=
  st.countP (isActiveAlertFor m)

/-- The stored active alert of vessel `m` (the row an
`idx_dark_alerts_status`-backed lookup returns). -/
def activeAlertFor (st : List DarkVesselAlert) (m : Nat) : Option DarkVesselAlert :=
  st.find? (isActiveAlertFor m)

/-- Overwrite an existing alert's projection fields, keeping it active. -/
def applyProjection (d : GapProjection) (a : DarkVesselAlert) : DarkVesselAlert :=
  { a with
    lastKnownLon := d.lastKnownLon
    lastKnownLat := d.lastKnownLat
    predictedLon := some d.predictedLon
    predictedLat := some d.predictedLat
    gapHours := d.gapHours
    searchRadiusNm := d.searchRadiusNm }

/-- A freshly created active alert. -/
def mkDarkAlert (m : Nat) (d : GapProjection) : DarkVesselAlert :=
  { mmsi := m, status := AlertStatus.active,
    lastKnownLon := d.lastKnownLon, lastKnownLat := d.lastKnownLat,
    predictedLon := some d.predictedLon, predictedLat := some d.predictedLat,
    gapHours := d.gapHours, searchRadiusNm := d.searchRadiusNm }

/-- Modelled from the spec: the gap detector's alert upsert ("Upsert one
active alert per vessel (never create a second active alert for the same
vessel — update the existing one instead)", §4.1).  The backend pass is
not among the sources; only its `dark_vessel_alerts` table is. -/
def upsertDarkAlert (st : List DarkVesselAlert) (m : Nat) (d : GapProjection) :
    List DarkVesselAlert :=
  if st.any (isActiveAlertFor m) then
    st.map (fun a => if isActiveAlertFor m a then applyProjection d a else a)
  else
    mkDarkAlert m d :: st

/-- Modelled from the spec: resolving a vessel's active alert when a new
position arrives (§4.1).  The backend pass is not among the sources. -/
def resolveDarkAlert (st : List DarkVesselAlert) (m : Nat) :
    List DarkVesselAlert :=
  st.map (fun a => if isActiveAlertFor m a then { a with status := AlertStatus.resolved } else a)

/-- The alert-store operations a gap-detector/resolution cycle performs. -/
inductive GapOp where
  | upsert (m : Nat) (d : GapProjection)
  | resolve (m : Nat)

/-- One operation applied to the alert store. -/
def applyGapOp (st : List DarkVesselAlert) : GapOp → List DarkVesselAlert
  | GapOp.upsert m d => upsertDarkAlert st m d
  | GapOp.resolve m => resolveDarkAlert st m

/-- The alert store after a sequence of operations, from an empty table. -/
def runGapOps (ops : List GapOp) : List DarkVesselAlert :=
  ops.foldl applyGapOp []

/-- A concrete projection payload. -/
def sampleProjection : GapProjection :=
  { lastKnownLon := 10, lastKnownLat := 20, predictedLon := 11,
    predictedLat := 20, gapHours := 3, searchRadiusNm := 12 }

/-- Modelled from the spec: the gap detector's search radius,
`radius = base + k × elapsed_hours × speed_uncertainty` (§4.1).  The
backend pass is not among the sources; the `search_radius_nm` and
`gap_hours` columns it fills are (src/unnamed/part_014). -/
def searchRadiusFormula (base k speedUncertainty elapsedHours : ℚ) : ℚ :=
  base + k * elapsedHours * speedUncertainty

/-- A projection carrying the radius for a 2-hour gap
(base 5 nm, k = 1, speed uncertainty 3 kn). -/
def sampleProjectionGap2 : GapProjection :=
  { lastKnownLon := 10, lastKnownLat := 20, predictedLon := 11,
    predictedLat := 20, gapHours := 2, searchRadiusNm := 11 }

/-- A projection carrying the radius for a 4-hour gap
(base 5 nm, k = 1, speed uncertainty 3 kn). -/
def sampleProjectionGap4 : GapProjection :=
  { lastKnownLon := 10, lastKnownLat := 20, predictedLon := 12,
    predictedLat := 20, gapHours := 4, searchRadiusNm := 17 }

/-! ### Risk scoring (schema `vessel_risk_scores` in
     src/db/init/008_remaining_schema.sql; scorer modelled from the
     spec §4.6; thresholds and the frontend critical-risk filter from
     src/unnamed/part_004, part_005,
     src/frontend/src/components/Panels/RiskPanel.tsx and part_009) -/

/-- The discrete risk level stored in `vessel_risk_scores.risk_level`. -/
inductive RiskLevel where
  | low
  | medium
  | high
  | critical
deriving DecidableEq

/-- Modelled from the spec: "Risk level is assigned by fixed thresholds:
≥75 critical, ≥50 high, ≥25 medium, else low" (§4.6).  The backend risk
scorer is not among the sources; the `risk_level` column it fills and
the frontend consumers of the level are. -/
def risk_level_of (overall : Nat) : RiskLevel :=
  if 75 ≤ overall then RiskLevel.critical
  else if 50 ≤ overall then RiskLevel.high
  else if 25 ≤ overall then RiskLevel.medium
  else RiskLevel.low

/-- Modelled from the spec: the per-vessel aggregates the risk scorer
reads (identity completeness/stability, flag-state tier, recent spoof
signals, dark-alert history, §4.6). -/
structure RiskFactors where
  missingName : Bool
  missingCallsign : Bool
  missingImo : Bool
  identityChanges : Nat
  flagRiskTier : Nat
  recentSpoofSignals : Nat
  darkAlertCount : Nat
  darkTotalGapHours : Nat
deriving DecidableEq

/-- Modelled from the spec: identity-consistency sub-score, "penalize
missing/changing name, callsign, registry number; bounded 0–20" (§4.6).
The per-item penalty weights are representative; the checked property
depends only on the clamp and the summation. -/
def identity_score (f : RiskFactors) : Nat :=
  min 20 (5 * ((cond f.missingName 1 0) + (cond f.missingCallsign 1 0)
    + (cond f.missingImo 1 0)) + 5 * f.identityChanges)

/-- Modelled from the spec: flag-state sub-score, "lookup-table risk
tier by registry state; bounded 0–20" (§4.6). -/
def flag_risk_score (f : RiskFactors) : Nat :=
  min 20 (5 * f.flagRiskTier)

/-- Modelled from the spec: anomaly sub-score, "frequency/severity of
recent spoof signals; bounded 0–30" (§4.6). -/
def anomaly_score (f : RiskFactors) : Nat :=
  min 30 (3 * f.recentSpoofSignals)

/-- Modelled from the spec: dark-history sub-score, "frequency and total
duration of past dark-vessel alerts; bounded 0–30" (§4.6). -/
def dark_history_score (f : RiskFactors) : Nat :=
  min 30 (5 * f.darkAlertCount + f.darkTotalGapHours)

/-- A row of `vessel_risk_scores`
(src/db/init/008_remaining_schema.sql, lines 184-198), also the
`RiskScore` interface the frontend consumes (useRisk hook). -/
structure RiskScore where
  mmsi : Nat
  overallScore : Nat
  identityScore : Nat
  flagRiskScore : Nat
  anomalyScore : Nat
  darkHistoryScore : Nat
  riskLevel : RiskLevel
deriving DecidableEq

/-- Modelled from the spec: the risk scorer — four bounded sub-scores,
overall is their unweighted sum, level from the fixed thresholds
(§4.6). -/
def computeRiskScore (mmsi : Nat) (f : RiskFactors) : RiskScore :=
  let i := identity_score f
  let fl := flag_risk_score f
  let an := anomaly_score f
  let dk := dark_history_score f
  { mmsi := mmsi, overallScore := i + fl + an + dk,
    identityScore := i, flagRiskScore := fl, anomalyScore := an,
    darkHistoryScore := dk,
    riskLevel := risk_level_of (i + fl + an + dk) }

/-- The threshold the frontend passes to the high-risk endpoint when it
builds the map's critical-risk highlight set:
`getHighRiskVessels(85)` (src/unnamed/part_004, line 51, and
src/unnamed/part_005, line 38). -/
def criticalHighlightThreshold : Nat := 85

/-- Modelled from the spec: the `/api/v1/risk/high-risk` endpoint
(backend not among the sources) selects vessels whose overall risk
score reaches the requested threshold. -/
def highRiskFilter (threshold score : Nat) : Bool :=
  decide (threshold ≤ score)

/-- Membership of a vessel's overall score in the frontend's
`criticalRiskMmsis` set (src/unnamed/part_004: the set of mmsis returned
by `getHighRiskVessels(85)`). -/
def inCriticalRiskMmsis (score : Nat) : Bool :=
  highRiskFilter criticalHighlightThreshold score

/-! ### Signal fusion (schema `signal_fusion_results` in
     src/db/init/008_remaining_schema.sql; display thresholds from
     src/frontend/src/components/Panels/FusionPanel.tsx and
     src/unnamed/part_009; the fusion computation modelled from the
     spec §4.5) -/

/-- The discrete classification labels of §4.5. -/
inductive FusionClass where
  | confirmed
  | likely
  | uncertain
  | unexplained
deriving DecidableEq

/-- The four text colors `posteriorColor` can produce. -/
inductive PosteriorColor where
  | green
  | cyan
  | yellow
  | red
deriving DecidableEq

/-- `posteriorColor` from FusionPanel.tsx (lines 43-48; identically in
src/unnamed/part_009, lines 188-193):
`p >= 0.8 ? green : p >= 0.5 ? cyan : p >= 0.3 ? yellow : red`. -/
def posteriorColor (p : ℚ) : PosteriorColor :=
  if 8/10 ≤ p then PosteriorColor.green
  else if 5/10 ≤ p then PosteriorColor.cyan
  else if 3/10 ≤ p then PosteriorColor.yellow
  else PosteriorColor.red

/-- Modelled from the spec: the classification label from the posterior,
"≥0.8 confirmed, ≥0.5 likely, ≥0.3 uncertain, else unexplained" (§4.5).
The backend fusion scorer is not among the sources. -/
def classifyPosterior (p : ℚ) : FusionClass :=
  if 8/10 ≤ p then FusionClass.confirmed
  else if 5/10 ≤ p then FusionClass.likely
  else if 3/10 ≤ p then FusionClass.uncertain
  else FusionClass.unexplained

/-- The color each classification band is displayed with. -/
def classColor : FusionClass → PosteriorColor
  | FusionClass.confirmed => PosteriorColor.green
  | FusionClass.likely => PosteriorColor.cyan
  | FusionClass.uncertain => PosteriorColor.yellow
  | FusionClass.unexplained => PosteriorColor.red

/-- Raw per-source inputs of one fusion computation; `none` marks a
source with no data (§4.5: "Sources with no data contribute a neutral
default"). -/
structure SourceInputs where
  ais : Option ℚ
  sar : Option ℚ
  viirs : Option ℚ
  acoustic : Option ℚ
deriving DecidableEq

/-- Clamp a raw confidence into [0,1]. -/
def clamp01 (x : ℚ) : ℚ := max 0 (min 1 x)

/-- Modelled from the spec: neutral default confidence for an absent
source (§4.5). -/
def neutralConfidence : ℚ := 1/2

/-- A source's effective confidence: the clamped raw value, or the
neutral default when the source has no data. -/
def sourceConfidence (c : Option ℚ) : ℚ :=
  clamp01 (c.getD neutralConfidence)

/-- A row of `signal_fusion_results`
(src/db/init/008_remaining_schema.sql, lines 133-146). -/
structure FusionResult where
  mmsi : Nat
  aisConfidence : ℚ
  sarConfidence : ℚ
  viirsConfidence : ℚ
  acousticConfidence : ℚ
  posteriorScore : ℚ
  classification : FusionClass
deriving DecidableEq

/-- Modelled from the spec: the fusion scorer — fixed-weight average of
the per-source confidences (weights 4:3:2:1), posterior mapped to a
classification by the fixed thresholds (§4.5). -/
def fuse (mmsi : Nat) (c : SourceInputs) : FusionResult :=
  let a := sourceConfidence c.ais
  let s := sourceConfidence c.sar
  let v := sourceConfidence c.viirs
  let ac := sourceConfidence c.acoustic
  let p := (4 * a + 3 * s + 2 * v + ac) / 10
  { mmsi := mmsi, aisConfidence := a, sarConfidence := s,
    viirsConfidence := v, acousticConfidence := ac,
    posteriorScore := p, classification := classifyPosterior p }

/-! ### Spoof signals (src/unnamed/part_016: `spoof_anomaly_type` enum,
     `spoof_signals`, `ais_raw_messages` flag columns;
     `ANOMALY_COLORS` in
     src/frontend/src/components/Panels/AlertPanel.tsx; flagger rules
     modelled from the spec §4.2) -/

/-- The values of the `spoof_anomaly_type` Postgres enum
(src/unnamed/part_016, lines 51-56) — also exactly the keys of the
frontend's `ANOMALY_COLORS` and the four `flag_*` columns of
`ais_raw_messages`. -/
def spoofAnomalyTypeValues : List String :=
  ["impossible_speed", "sart_on_non_sar", "position_jump", "no_identity"]

/-- A row of `spoof_signals` (src/unnamed/part_016, lines 58-69).  The
`anomaly_type` is carried as text at the insert boundary; Postgres
rejects any value outside the enum. -/
structure SpoofSignal where
  mmsi : Nat
  anomalyType : String
  lon : ℚ
  lat : ℚ
  sog : Option ℚ
  cog : Option ℚ
  detectedAt : Int
  clusterId : Option Nat
deriving DecidableEq

/-- Inserting into `spoof_signals`: the enum-typed `anomaly_type` column
makes Postgres reject any value outside `spoof_anomaly_type`. -/
def insertSpoofSignal (st : List SpoofSignal) (s : SpoofSignal) :
    Option (List SpoofSignal) :=
  if s.anomalyType ∈ spoofAnomalyTypeValues then some (s :: st) else none

/-- A batch of inserts into an initially empty `spoof_signals` table;
`none` when any insert is rejected. -/
def insertSpoofSignals (sigs : List SpoofSignal) : Option (List SpoofSignal) :=
  sigs.foldl (fun ost s => ost.bind (fun st => insertSpoofSignal st s)) (some [])

/-- Modelled from the spec: the fields of an incoming AIS message the
Anomaly Flagger's four rules read (§4.2).  Timestamps are in hours;
positions in planar coordinates. -/
structure AisMessage where
  mmsi : Nat
  lon : ℚ
  lat : ℚ
  sogKnots : ℚ
  timestampHours : ℚ
  isSartType : Bool
  vesselTypeIsSar : Bool
  hasName : Bool
  hasCallsign : Bool
  hasImo : Bool
deriving DecidableEq

/-- Modelled from the spec: planar distance proxy in nautical miles
(Chebyshev metric on degrees × 60), a consistent planar approximation
as §4.1 permits. -/
def planarDistanceNm (lon1 lat1 lon2 lat2 : ℚ) : ℚ :=
  60 * max |lon2 - lon1| |lat2 - lat1|

/-- Modelled from the spec: the physical speed ceiling (50 knots,
§4.2). -/
def speedCeilingKnots : ℚ := 50

/-- Modelled from the spec: the tighter distance-only jump bound
(§4.2 `position_jump`). -/
def maxPlausibleJumpNm : ℚ := 30

/-- §4.2 `impossible_speed`: implied speed over the elapsed interval
exceeds the ceiling. -/
def impossibleSpeedFlag (prev cur : AisMessage) : Bool :=
  let elapsed := cur.timestampHours - prev.timestampHours
  decide (0 < elapsed ∧
    speedCeilingKnots * elapsed
      < planarDistanceNm prev.lon prev.lat cur.lon cur.lat)

/-- §4.2 `position_jump`: displacement exceeds the plausible bound,
independent of the speed field. -/
def positionJumpFlag (prev cur : AisMessage) : Bool :=
  decide (maxPlausibleJumpNm < planarDistanceNm prev.lon prev.lat cur.lon cur.lat)

/-- §4.2 `sart_on_non_sar`: the message identifies as a SART transponder
while the vessel's declared type is not search-and-rescue. -/
def sartOnNonSarFlag (cur : AisMessage) : Bool :=
  cur.isSartType && !cur.vesselTypeIsSar

/-- §4.2 `no_identity`: name, callsign and registry number are all
missing. -/
def noIdentityFlag (cur : AisMessage) : Bool :=
  !cur.hasName && !cur.hasCallsign && !cur.hasImo

/-- Modelled from the spec: the Anomaly Flagger — each positive rule
emits a spoof signal of the rule's type; one record may emit zero, one
or several (§4.2).  The backend flagger is not among the sources; the
enum and flag columns it writes are (src/unnamed/part_016). -/
def flagMessage (cur : AisMessage) (prev : Option AisMessage) : List String :=
  (match prev with
   | some p =>
     (if impossibleSpeedFlag p cur then ["impossible_speed"] else [])
     ++ (if positionJumpFlag p cur then ["position_jump"] else [])
   | none => [])
  ++ (if sartOnNonSarFlag cur then ["sart_on_non_sar"] else [])
  ++ (if noIdentityFlag cur then ["no_identity"] else [])

/-- A message with no identity fields and a SART type claim on a
non-SAR vessel, teleported 10 degrees in one hour. -/
def sampleSpoofCur : AisMessage :=
  { mmsi := 9, lon := 10, lat := 0, sogKnots := 9, timestampHours := 1,
    isSartType := true, vesselTypeIsSar := false,
    hasName := false, hasCallsign := false, hasImo := false }

/-- The previous sample of the same vessel, at the origin at time 0. -/
def sampleSpoofPrev : AisMessage :=
  { mmsi := 9, lon := 0, lat := 0, sogKnots := 9, timestampHours := 0,
    isSartType := false, vesselTypeIsSar := false,
    hasName := true, hasCallsign := true, hasImo := true }

/-- A concrete spoof-signal row of type `position_jump`. -/
def sampleSpoofSignal : SpoofSignal :=
  { mmsi := 9, anomalyType := "position_jump", lon := 10, lat := 0,
    sog := none, cog := none, detectedAt := 1, clusterId := none }

/-! ### Frontend vessel store (src/unnamed/part_001 and part_000:
     `updateVessel` / `batchUpdateVessels` on a `Map<number, Vessel>`)
     and map search filter (src/unnamed/part_012: `searchMatchSet`,
     `setFilteredCount`, `getFilterValue`) -/

/-- The `Vessel` interface of the store (src/unnamed/part_001), with the
fields the checked properties read.  JS strings are lists of
characters. -/
structure VesselRec where
  mmsi : Nat
  name : Option (List Char)
  shipType : List Char
  lon : ℚ
  lat : ℚ
  timestamp : Int
deriving DecidableEq

/-- `Map.set(v.mmsi, v)`: replace the entry with this key in place, or
append a new entry (JS `Map` preserves insertion order). -/
def mapSet (s : List VesselRec) (v : VesselRec) : List VesselRec :=
  if s.any (fun w => decide (w.mmsi = v.mmsi)) then
    s.map (fun w => if w.mmsi = v.mmsi then v else w)
  else s ++ [v]

/-- `updateVessel` (src/unnamed/part_001, lines 362-367): a single
keyed overwrite. -/
def updateVessel (s : List VesselRec) (v : VesselRec) : List VesselRec :=
  mapSet s v

/-- `batchUpdateVessels` (src/unnamed/part_001, lines 369-376): the
batch's entries are `Map.set` one after the other. -/
def batchUpdateVessels (s : List VesselRec) (batch : List VesselRec) :
    List VesselRec :=
  batch.foldl mapSet s

/-- `Map.get(m)`. -/
def lookupVessel (s : List VesselRec) (m : Nat) : Option VesselRec :=
  s.find? (fun w => decide (w.mmsi = m))

/-- `vesselCount` is set to `newMap.size` after every store operation. -/
def vesselCount (s : List VesselRec) : Nat := s.length

/-- The store's keys, in order. -/
def mmsiKeys (s : List VesselRec) : List Nat := s.map (fun w => w.mmsi)

/-- The store's `Map` invariant: one entry per mmsi. -/
def KeysNodup (s : List VesselRec) : Prop := (mmsiKeys s).Nodup

/-- The last entry of the batch carrying a given mmsi (the one that
wins the sequence of `Map.set`s). -/
def lastInBatch (b : List VesselRec) (m : Nat) : Option VesselRec :=
  b.foldl (fun acc v => if v.mmsi = m then some v else acc) none

/-- The stored newer record of vessel 1 (timestamp 100). -/
def sampleStoredVessel : VesselRec :=
  { mmsi := 1, name := some ['A'], shipType := [], lon := 0, lat := 0,
    timestamp := 100 }

/-- An untouched second vessel. -/
def sampleOtherVessel : VesselRec :=
  { mmsi := 2, name := none, shipType := [], lon := 5, lat := 5,
    timestamp := 100 }

/-- A batch record for vessel 1 carrying an older sample
(timestamp 50 < 100). -/
def sampleOlderVessel : VesselRec :=
  { mmsi := 1, name := some ['A'], shipType := [], lon := 9, lat := 9,
    timestamp := 50 }

/-! ### Map search filter (src/unnamed/part_012, lines 192-207 and
     321-327: `searchMatchSet` / `setFilteredCount` / `getFilterValue`) -/

/-- JS `String.prototype.toLowerCase` on a list of characters. -/
def toLowerStr (s : List Char) : List Char := s.map Char.toLower

/-- JS `haystack.includes(needle)`: `needle` occurs contiguously in
`haystack`. -/
def isInfixB (q : List Char) : List Char → Bool
  | [] => q.isEmpty
  | c :: t => q.isPrefixOf (c :: t) || isInfixB q t

/-- `String(v.mmsi)`: the decimal digit string of an mmsi. -/
def mmsiDigits (m : Nat) : List Char := Nat.toDigits 10 m

/-- The per-vessel test of `searchMatchSet` (src/unnamed/part_012,
lines 196-199): `String(v.mmsi).includes(q) ||
(v.name && v.name.toLowerCase().includes(q))`, where `q` is the
already-lowercased query. -/
def vesselMatchesSearch (ql : List Char) (v : VesselRec) : Bool :=
  isInfixB ql (mmsiDigits v.mmsi)
  || (match v.name with
      | some nm => isInfixB ql (toLowerStr nm)
      | none => false)

/-- `searchMatchSet` (src/unnamed/part_012, lines 192-201): `null` for
an empty query, otherwise the set of mmsis of matching vessels. -/
def searchMatchSet (query : List Char) (vs : List VesselRec) :
    Option (Finset Nat) :=
  if query = [] then none
  else some (((vs.filter (vesselMatchesSearch (toLowerStr query))).map
    (fun v => v.mmsi)).toFinset)

/-- The count pushed to the store by `setFilteredCount`
(src/unnamed/part_012, lines 204-207): the match set's size, or the
full vessel count when the query is empty. -/
def filteredCount (query : List Char) (vs : List VesselRec) : Nat :=
  match searchMatchSet query vs with
  | none => vs.length
  | some s => s.card

/-- The `riskFusionFilter` store field. -/
inductive RiskFusionFilter where
  | all
  | critical
  | lowConfidence
deriving DecidableEq

/-- `getFilterValue` of the vessel layer (src/unnamed/part_012,
lines 321-326): 0 when the search match set exists and lacks the
vessel's mmsi, 0 when an enabled risk/fusion filter lacks it, else 1. -/
def getFilterValue (ms : Option (Finset Nat)) (rf : RiskFusionFilter)
    (crit lowc : Finset Nat) (v : VesselRec) : Nat :=
  match ms with
  | some s =>
    if v.mmsi ∉ s then 0
    else if rf = RiskFusionFilter.critical ∧ v.mmsi ∉ crit then 0
    else if rf = RiskFusionFilter.lowConfidence ∧ v.mmsi ∉ lowc then 0
    else 1
  | none =>
    if rf = RiskFusionFilter.critical ∧ v.mmsi ∉ crit then 0
    else if rf = RiskFusionFilter.lowConfidence ∧ v.mmsi ∉ lowc then 0
    else 1

/-- A vessel whose mmsi contains the digits 44 and whose name contains
"est" case-insensitively. -/
def sampleSearchVessel : VesselRec :=
  { mmsi := 2440, name := some ['T', 'E', 'S', 'T'], shipType := [],
    lon := 0, lat := 0, timestamp := 0 }

/-! ### Theorems -/

theorem mem_matchedDetections (ds : List SarDetection) (d : SarDetection) :
    d ∈ matchedDetections ds ↔ d ∈ ds ∧ d.matched = true := by
  simp [matchedDetections, List.mem_filter]

theorem mem_unmatchedDetections (ds : List SarDetection) (d : SarDetection) :
    d ∈ unmatchedDetections ds ↔ d ∈ ds ∧ d.matched = false := by
  simp [unmatchedDetections, List.mem_filter]

theorem matched_unmatched_length (ds : List SarDetection) :
    (matchedDetections ds).length + (unmatchedDetections ds).length = ds.length := by
  induction ds with
  | nil => rfl
  | cons d t ih =>
    by_cases h : d.matched = true <;>
      simp [matchedDetections, unmatchedDetections, List.filter, h] at * <;> omega

/-- **C7**: every SAR detection is in exactly one of the two map layers,
determined solely by its boolean `matched` flag: the matched-detections
list and the ghost-vessel list are disjoint, their union (as membership)
is the full detection list, and their sizes add up to the total. -/
theorem sar_detection_matched_ghost_partition
    (ds : List SarDetection) (d : SarDetection) :
    (d ∈ matchedDetections ds ↔ d ∈ ds ∧ d.matched = true)
    ∧ (d ∈ unmatchedDetections ds ↔ d ∈ ds ∧ d.matched = false)
    ∧ ¬(d ∈ matchedDetections ds ∧ d ∈ unmatchedDetections ds)
    ∧ (d ∈ ds ↔ d ∈ matchedDetections ds ∨ d ∈ unmatchedDetections ds)
    ∧ (matchedDetections ds).length + (unmatchedDetections ds).length = ds.length := by
  refine ⟨mem_matchedDetections ds d, mem_unmatchedDetections ds d, ?_, ?_,
    matched_unmatched_length ds⟩
  · rintro ⟨h1, h2⟩
    rw [mem_matchedDetections] at h1
    rw [mem_unmatchedDetections] at h2
    simp [h1.2] at h2
  · constructor
    · intro hd
      by_cases h : d.matched = true
      · exact Or.inl ((mem_matchedDetections ds d).2 ⟨hd, h⟩)
      · exact Or.inr ((mem_unmatchedDetections ds d).2 ⟨hd, by simpa using h⟩)
    · rintro (h | h)
      · exact ((mem_matchedDetections ds d).1 h).1
      · exact ((mem_unmatchedDetections ds d).1 h).1

/-- Concrete instantiation of `sar_detection_matched_ghost_partition`:
a matched detection is not in both layers. -/
theorem sar_detection_matched_ghost_partition_witness :
    ¬(sampleSarDetection ∈ matchedDetections [sampleSarDetection]
      ∧ sampleSarDetection ∈ unmatchedDetections [sampleSarDetection]) :=
  (sar_detection_matched_ghost_partition [sampleSarDetection]
    sampleSarDetection).2.2.1

theorem upsert_latest_ts_mono (vessels : Nat → Option VesselMeta)
    (t : LatestTable) (p : PositionInsert) (m : Nat) (r : LatestPosition)
    (h : t m = some r) :
    ∃ r', upsert_latest_position vessels t p m = some r'
      ∧ r.timestamp ≤ r'.timestamp := by
  unfold upsert_latest_position
  by_cases hm : m = p.mmsi
  · subst hm
    rw [h]
    simp only [if_pos rfl]
    by_cases hts : r.timestamp < p.timestamp
    · exact ⟨latestRowOf vessels p, by simp [hts], le_of_lt hts⟩
    · exact ⟨r, by simp [hts], le_refl _⟩
  · exact ⟨r, by simp [hm, h], le_refl _⟩

theorem insertPositions_ts_mono (vessels : Nat → Option VesselMeta)
    (t : LatestTable) (ps : List PositionInsert) (m : Nat) (r : LatestPosition)
    (h : t m = some r) :
    ∃ r', insertPositions vessels t ps m = some r'
      ∧ r.timestamp ≤ r'.timestamp := by
  induction ps generalizing t r with
  | nil => exact ⟨r, h, le_refl _⟩
  | cons p tail ih =>
    obtain ⟨r1, hr1, hle1⟩ := upsert_latest_ts_mono vessels t p m r h
    obtain ⟨r2, hr2, hle2⟩ := ih (upsert_latest_position vessels t p) r1 hr1
    exact ⟨r2, hr2, le_trans hle1 hle2⟩

theorem upsert_latest_stale_noop (vessels : Nat → Option VesselMeta)
    (t : LatestTable) (p : PositionInsert) (r : LatestPosition)
    (h : t p.mmsi = some r) (hts : p.timestamp ≤ r.timestamp) :
    upsert_latest_position vessels t p = t := by
  funext m
  unfold upsert_latest_position
  by_cases hm : m = p.mmsi
  · subst hm
    rw [h]
    simp [not_lt.mpr hts, h]
  · simp [hm]

/-- **C6**: the `upsert_latest_position` trigger keeps the per-vessel
latest timestamp monotonically non-decreasing across any sequence of
inserts into `vessel_positions`: a stored row is replaced only when the
inserted sample's timestamp is strictly greater, an out-of-order (older
or equal) sample leaves the table unchanged, and rows of other vessels
are untouched. -/
theorem latest_position_timestamp_monotone
    (vessels : Nat → Option VesselMeta) (t : LatestTable)
    (p : PositionInsert) (ps : List PositionInsert) (m : Nat) :
    (∀ r, t m = some r →
      ∃ r', upsert_latest_position vessels t p m = some r'
        ∧ r.timestamp ≤ r'.timestamp)
    ∧ (∀ r, t p.mmsi = some r → p.timestamp ≤ r.timestamp →
        upsert_latest_position vessels t p = t)
    ∧ (∀ r, t p.mmsi = some r → r.timestamp < p.timestamp →
        upsert_latest_position vessels t p p.mmsi
          = some (latestRowOf vessels p))
    ∧ (m ≠ p.mmsi → upsert_latest_position vessels t p m = t m)
    ∧ (∀ r, t m = some r →
        ∃ r', insertPositions vessels t ps m = some r'
          ∧ r.timestamp ≤ r'.timestamp) := by
  refine ⟨fun r h => upsert_latest_ts_mono vessels t p m r h,
    fun r h hts => upsert_latest_stale_noop vessels t p r h hts,
    fun r h hts => ?_, fun hm => ?_,
    fun r h => insertPositions_ts_mono vessels t ps m r h⟩
  · unfold upsert_latest_position
    rw [h]
    simp [hts]
  · unfold upsert_latest_position
    simp [hm]

theorem latest_position_timestamp_monotone_witness :
    upsert_latest_position (fun _ => none) sampleLatestTable sampleStaleInsert
      = sampleLatestTable :=
  (latest_position_timestamp_monotone (fun _ => none) sampleLatestTable
      sampleStaleInsert [] 7).2.1 sampleLatestRow rfl (by norm_num [sampleLatestRow, sampleStaleInsert])

theorem isActiveAlertFor_applyProjection (m : Nat) (d : GapProjection)
    (a : DarkVesselAlert) :
    isActiveAlertFor m (applyProjection d a) = isActiveAlertFor m a := by
  simp [isActiveAlertFor, applyProjection]

theorem activeAlertCount_upsert (st : List DarkVesselAlert) (m m' : Nat)
    (d : GapProjection) (h : activeAlertCount st m ≤ 1) :
    activeAlertCount (upsertDarkAlert st m' d) m ≤ 1 := by
  unfold upsertDarkAlert
  by_cases hany : st.any (isActiveAlertFor m') = true
  · rw [if_pos hany]
    have hmap : activeAlertCount
        (st.map (fun a => if isActiveAlertFor m' a then applyProjection d a else a)) m
        = activeAlertCount st m := by
      unfold activeAlertCount
      rw [List.countP_map]
      refine List.countP_congr fun a _ => ?_
      by_cases ha : isActiveAlertFor m' a = true <;>
        simp [Function.comp, ha, isActiveAlertFor_applyProjection]
    rw [hmap]; exact h
  · rw [if_neg hany]
    by_cases hm : m = m'
    · subst hm
      have hz : activeAlertCount st m = 0 := by
        unfold activeAlertCount
        rw [List.countP_eq_zero]
        intro a ha
        simp only [List.any_eq_true, not_exists, not_and] at hany
        intro hcontra
        exact hany a ha hcontra
      unfold activeAlertCount at *
      rw [List.countP_cons]
      have : isActiveAlertFor m (mkDarkAlert m d) = true := by
        simp [isActiveAlertFor, mkDarkAlert]
      simp [this, hz]
    · unfold activeAlertCount at *
      rw [List.countP_cons]
      have : isActiveAlertFor m (mkDarkAlert m' d) = false := by
        simp [isActiveAlertFor, mkDarkAlert]
        intro hc
        exact absurd hc.symm hm
      simp [this]
      exact h

theorem activeAlertCount_resolve (st : List DarkVesselAlert) (m m' : Nat) :
    activeAlertCount (resolveDarkAlert st m') m ≤ activeAlertCount st m := by
  unfold activeAlertCount resolveDarkAlert
  rw [List.countP_map]
  refine List.countP_mono_left fun a _ => ?_
  intro hpa
  by_cases ha : isActiveAlertFor m' a = true
  · exfalso
    have hres : isActiveAlertFor m ({ a with status := AlertStatus.resolved }) = false := by
      simp [isActiveAlertFor]
    rw [Function.comp_apply, if_pos ha, hres] at hpa
    exact Bool.false_ne_true hpa
  · rwa [Function.comp_apply, if_neg ha] at hpa

theorem runGapOps_single_active (ops : List GapOp) (m : Nat) :
    activeAlertCount (runGapOps ops) m ≤ 1 := by
  suffices h : ∀ st, (∀ m', activeAlertCount st m' ≤ 1) →
      ∀ m', activeAlertCount (ops.foldl applyGapOp st) m' ≤ 1 by
    exact h [] (fun _ => by simp [activeAlertCount]) m
  induction ops with
  | nil => intro st hst m'; exact hst m'
  | cons op tail ih =>
    intro st hst m'
    refine ih (applyGapOp st op) (fun m'' => ?_) m'
    cases op with
    | upsert mu d => exact activeAlertCount_upsert st m'' mu d (hst m'')
    | resolve mr => exact le_trans (activeAlertCount_resolve st m'' mr) (hst m'')

theorem upsert_existing_length (st : List DarkVesselAlert) (m : Nat)
    (d : GapProjection) (h : st.any (isActiveAlertFor m) = true) :
    (upsertDarkAlert st m d).length = st.length := by
  simp [upsertDarkAlert, h]

theorem upsert_fresh_length (st : List DarkVesselAlert) (m : Nat)
    (d : GapProjection) (h : st.any (isActiveAlertFor m) = false) :
    (upsertDarkAlert st m d).length = st.length + 1 := by
  simp [upsertDarkAlert, h]

theorem activeAlertFor_upsert (st : List DarkVesselAlert) (m : Nat)
    (d : GapProjection) :
    ∃ a, activeAlertFor (upsertDarkAlert st m d) m = some a
      ∧ a.gapHours = d.gapHours ∧ a.searchRadiusNm = d.searchRadiusNm
      ∧ a.mmsi = m ∧ a.status = AlertStatus.active := by
  unfold upsertDarkAlert
  by_cases hany : st.any (isActiveAlertFor m) = true
  · rw [if_pos hany]
    induction st with
    | nil => simp at hany
    | cons a t ih =>
      by_cases ha : isActiveAlertFor m a = true
      · have hmm : a.mmsi = m ∧ a.status = AlertStatus.active := of_decide_eq_true ha
        refine ⟨applyProjection d a, ?_, by simp [applyProjection],
          by simp [applyProjection], ?_, ?_⟩
        · unfold activeAlertFor
          rw [List.map_cons, if_pos ha]
          exact List.find?_cons_of_pos _
            (by rw [isActiveAlertFor_applyProjection]; exact ha)
        · simp [applyProjection, hmm.1]
        · simp [applyProjection, hmm.2]
      · have hany' : t.any (isActiveAlertFor m) = true := by
          simpa [List.any_cons, ha] using hany
        obtain ⟨b, hb, h1, h2, h3, h4⟩ := ih hany'
        refine ⟨b, ?_, h1, h2, h3, h4⟩
        unfold activeAlertFor at hb ⊢
        rw [List.map_cons, if_neg ha, List.find?_cons_of_neg _ (by simpa using ha)]
        exact hb
  · rw [if_neg hany]
    refine ⟨mkDarkAlert m d, ?_, rfl, rfl, rfl, rfl⟩
    have hmk : isActiveAlertFor m (mkDarkAlert m d) = true := by
      simp [isActiveAlertFor, mkDarkAlert]
    unfold activeAlertFor
    exact List.find?_cons_of_pos _ hmk

/-- **C1**: the alert store keeps at most one active dark-vessel alert
per vessel: any sequence of gap-detector upserts and resolutions from an
empty `dark_vessel_alerts` table leaves at most one active row per mmsi,
an upsert onto a vessel that already has an active alert adds no row
(the existing one is updated in place, carrying the new projection), and
only a vessel without an active alert gets a new row. -/
theorem dark_alert_at_most_one_active (ops : List GapOp)
    (st : List DarkVesselAlert) (m : Nat) (d : GapProjection) :
    activeAlertCount (runGapOps ops) m ≤ 1
    ∧ (st.any (isActiveAlertFor m) = true →
        (upsertDarkAlert st m d).length = st.length)
    ∧ (st.any (isActiveAlertFor m) = false →
        (upsertDarkAlert st m d).length = st.length + 1)
    ∧ (∃ a, activeAlertFor (upsertDarkAlert st m d) m = some a
        ∧ a.gapHours = d.gapHours ∧ a.searchRadiusNm = d.searchRadiusNm
        ∧ a.mmsi = m ∧ a.status = AlertStatus.active) :=
  ⟨runGapOps_single_active ops m,
   fun h => upsert_existing_length st m d h,
   fun h => upsert_fresh_length st m d h,
   activeAlertFor_upsert st m d⟩

/-- Concrete instantiation of `dark_alert_at_most_one_active`: upserting
vessel 9 twice into an empty store leaves a single row. -/
theorem dark_alert_at_most_one_active_witness :
    (upsertDarkAlert (upsertDarkAlert [] 9 sampleProjection) 9 sampleProjection).length
      = (upsertDarkAlert [] 9 sampleProjection).length :=
  (dark_alert_at_most_one_active [] (upsertDarkAlert [] 9 sampleProjection)
    9 sampleProjection).2.1 (by decide)

/-- **C8**: for a vessel with an active dark alert, the stored search
radius is non-decreasing in the elapsed gap: recomputing the alert with
a larger `gap_hours` (uncertainty coefficients held fixed and
non-negative) stores a search radius at least as large as the previous
one. -/
theorem dark_alert_radius_monotone (st : List DarkVesselAlert) (m : Nat)
    (base k u g₁ g₂ : ℚ) (d₁ d₂ : GapProjection)
    (hk : 0 ≤ k) (hu : 0 ≤ u) (hg : g₁ ≤ g₂)
    (h₁ : d₁.searchRadiusNm = searchRadiusFormula base k u g₁)
    (h₂ : d₂.searchRadiusNm = searchRadiusFormula base k u g₂) :
    ∃ a₁ a₂, activeAlertFor (upsertDarkAlert st m d₁) m = some a₁
      ∧ activeAlertFor (upsertDarkAlert (upsertDarkAlert st m d₁) m d₂) m = some a₂
      ∧ a₁.searchRadiusNm ≤ a₂.searchRadiusNm := by
  obtain ⟨a₁, ha₁, _, hr₁, _, _⟩ := activeAlertFor_upsert st m d₁
  obtain ⟨a₂, ha₂, _, hr₂, _, _⟩ :=
    activeAlertFor_upsert (upsertDarkAlert st m d₁) m d₂
  refine ⟨a₁, a₂, ha₁, ha₂, ?_⟩
  rw [hr₁, hr₂, h₁, h₂]
  unfold searchRadiusFormula
  have h3 : k * g₁ * u ≤ k * g₂ * u :=
    mul_le_mul_of_nonneg_right (mul_le_mul_of_nonneg_left hg hk) hu
  linarith

/-- Concrete instantiation of `dark_alert_radius_monotone` at gap hours
2 then 4 for vessel 9. -/
theorem dark_alert_radius_monotone_witness :
    ∃ a₁ a₂, activeAlertFor (upsertDarkAlert [] 9 sampleProjectionGap2) 9 = some a₁
      ∧ activeAlertFor
          (upsertDarkAlert (upsertDarkAlert [] 9 sampleProjectionGap2) 9
            sampleProjectionGap4) 9 = some a₂
      ∧ a₁.searchRadiusNm ≤ a₂.searchRadiusNm :=
  dark_alert_radius_monotone [] 9 5 1 3 2 4 sampleProjectionGap2 sampleProjectionGap4
    (by norm_num) (by norm_num) (by norm_num)
    (by norm_num [sampleProjectionGap2, searchRadiusFormula])
    (by norm_num [sampleProjectionGap4, searchRadiusFormula])

/-- **C2**: every computed `RiskScore` has `overall` equal to the sum of
its four sub-scores, each sub-score within its bound (identity ≤ 20,
flag ≤ 20, anomaly ≤ 30, dark history ≤ 30), the overall score within
[0,100] (scores are naturals, so 0 is a lower bound by type), and the
stored risk level determined by the overall score. -/
theorem risk_score_sum_and_bounds (m : Nat) (f : RiskFactors) :
    (computeRiskScore m f).overallScore
      = (computeRiskScore m f).identityScore + (computeRiskScore m f).flagRiskScore
        + (computeRiskScore m f).anomalyScore + (computeRiskScore m f).darkHistoryScore
    ∧ (computeRiskScore m f).identityScore ≤ 20
    ∧ (computeRiskScore m f).flagRiskScore ≤ 20
    ∧ (computeRiskScore m f).anomalyScore ≤ 30
    ∧ (computeRiskScore m f).darkHistoryScore ≤ 30
    ∧ (computeRiskScore m f).overallScore ≤ 100
    ∧ (computeRiskScore m f).riskLevel
        = risk_level_of ((computeRiskScore m f).overallScore) := by
  refine ⟨rfl, Nat.min_le_left _ _, Nat.min_le_left _ _, Nat.min_le_left _ _,
    Nat.min_le_left _ _, ?_, rfl⟩
  have h1 : identity_score f ≤ 20 := Nat.min_le_left _ _
  have h2 : flag_risk_score f ≤ 20 := Nat.min_le_left _ _
  have h3 : anomaly_score f ≤ 30 := Nat.min_le_left _ _
  have h4 : dark_history_score f ≤ 30 := Nat.min_le_left _ _
  show identity_score f + flag_risk_score f + anomaly_score f + dark_history_score f ≤ 100
  omega

/-- **C4, counterexample**: an overall score of 80 is classified
`critical` by the risk-level thresholds (80 ≥ 75), yet the system's
critical-risk highlight set excludes it, because that set is fetched
with threshold 85 — so a second threshold is in use for the critical
classification, refuting the claim as stated. -/
theorem risk_critical_two_thresholds_counterexample :
    risk_level_of 80 = RiskLevel.critical ∧ inCriticalRiskMmsis 80 = false := by
  constructor
  · rfl
  · rfl

/-- **C4, amended**: the risk level is assigned from the overall score
by the fixed thresholds (≥75 critical, ≥50 high, ≥25 medium, else low),
and every vessel in the map's critical-risk highlight set satisfies
overall ≥ 75; but that highlight set is fetched with the stricter
threshold 85, so vessels with overall in [75,85) are `critical` by risk
level while absent from the highlight set. -/
theorem risk_level_thresholds (s : Nat) :
    (inCriticalRiskMmsis s = true → risk_level_of s = RiskLevel.critical)
    ∧ (risk_level_of s = RiskLevel.critical ↔ 75 ≤ s)
    ∧ (risk_level_of s = RiskLevel.high ↔ 50 ≤ s ∧ s < 75)
    ∧ (risk_level_of s = RiskLevel.medium ↔ 25 ≤ s ∧ s < 50)
    ∧ (risk_level_of s = RiskLevel.low ↔ s < 25)
    ∧ (inCriticalRiskMmsis s = true ↔ 85 ≤ s) := by
  have h85 : inCriticalRiskMmsis s = true ↔ 85 ≤ s := by
    simp [inCriticalRiskMmsis, highRiskFilter, criticalHighlightThreshold]
  refine ⟨?_, ?_, ?_, ?_, ?_, h85⟩ <;>
    unfold risk_level_of <;>
    split_ifs with h1 h2 h3 <;>
    simp_all <;> omega

/-- Concrete instantiation of `risk_level_thresholds`: a vessel in the
critical highlight set (score 90 ≥ 85) is indeed `critical`. -/
theorem risk_level_thresholds_witness :
    risk_level_of 90 = RiskLevel.critical :=
  (risk_level_thresholds 90).1 rfl

theorem clamp01_bounds (x : ℚ) : 0 ≤ clamp01 x ∧ clamp01 x ≤ 1 := by
  unfold clamp01
  constructor
  · exact le_max_left 0 _
  · exact max_le (by norm_num) (min_le_left 1 x)

theorem sourceConfidence_bounds (c : Option ℚ) :
    0 ≤ sourceConfidence c ∧ sourceConfidence c ≤ 1 :=
  clamp01_bounds _

/-- **C3**: every fusion result's per-source confidences and posterior
score lie in [0,1] (absent sources falling back to the neutral
default), the stored classification is determined by the posterior via
the fixed 0.8 / 0.5 / 0.3 thresholds, and the color shown for a
posterior is exactly the color of its classification band — the display
is a pure function of the threshold partition. -/
theorem fusion_posterior_bounds_and_classification
    (m : Nat) (c : SourceInputs) (p : ℚ) :
    (0 ≤ (fuse m c).aisConfidence ∧ (fuse m c).aisConfidence ≤ 1)
    ∧ (0 ≤ (fuse m c).sarConfidence ∧ (fuse m c).sarConfidence ≤ 1)
    ∧ (0 ≤ (fuse m c).viirsConfidence ∧ (fuse m c).viirsConfidence ≤ 1)
    ∧ (0 ≤ (fuse m c).acousticConfidence ∧ (fuse m c).acousticConfidence ≤ 1)
    ∧ (0 ≤ (fuse m c).posteriorScore ∧ (fuse m c).posteriorScore ≤ 1)
    ∧ (fuse m c).classification = classifyPosterior ((fuse m c).posteriorScore)
    ∧ posteriorColor p = classColor (classifyPosterior p) := by
  obtain ⟨ha0, ha1⟩ := sourceConfidence_bounds c.ais
  obtain ⟨hs0, hs1⟩ := sourceConfidence_bounds c.sar
  obtain ⟨hv0, hv1⟩ := sourceConfidence_bounds c.viirs
  obtain ⟨hc0, hc1⟩ := sourceConfidence_bounds c.acoustic
  refine ⟨⟨ha0, ha1⟩, ⟨hs0, hs1⟩, ⟨hv0, hv1⟩, ⟨hc0, hc1⟩, ⟨?_, ?_⟩, rfl, ?_⟩
  · show 0 ≤ (4 * sourceConfidence c.ais + 3 * sourceConfidence c.sar
      + 2 * sourceConfidence c.viirs + sourceConfidence c.acoustic) / 10
    positivity
  · show (4 * sourceConfidence c.ais + 3 * sourceConfidence c.sar
      + 2 * sourceConfidence c.viirs + sourceConfidence c.acoustic) / 10 ≤ 1
    rw [div_le_one (by norm_num)]
    linarith
  · unfold posteriorColor classifyPosterior classColor
    split_ifs <;> rfl

theorem foldl_insertSpoofSignal_none (tail : List SpoofSignal) :
    tail.foldl (fun ost s => ost.bind (fun st => insertSpoofSignal st s)) none
      = none := by
  induction tail with
  | nil => rfl
  | cons u v ihv =>
    rw [List.foldl_cons, Option.none_bind]
    exact ihv

theorem insertSpoofSignals_closed (sigs : List SpoofSignal)
    (st : List SpoofSignal) (h : insertSpoofSignals sigs = some st) :
    ∀ s ∈ st, s.anomalyType ∈ spoofAnomalyTypeValues := by
  suffices hgen : ∀ (sigs : List SpoofSignal) (acc st : List SpoofSignal),
      (∀ s ∈ acc, s.anomalyType ∈ spoofAnomalyTypeValues) →
      sigs.foldl (fun ost s => ost.bind (fun st => insertSpoofSignal st s))
        (some acc) = some st →
      ∀ s ∈ st, s.anomalyType ∈ spoofAnomalyTypeValues by
    exact hgen sigs [] st (by simp) h
  intro sigs
  induction sigs with
  | nil =>
    intro acc st hacc hfold
    simp only [List.foldl_nil, Option.some.injEq] at hfold
    exact hfold ▸ hacc
  | cons sg tail ih =>
    intro acc st hacc hfold
    rw [List.foldl_cons, Option.some_bind] at hfold
    by_cases hmem : sg.anomalyType ∈ spoofAnomalyTypeValues
    · rw [show insertSpoofSignal acc sg = some (sg :: acc) from by
        simp [insertSpoofSignal, hmem]] at hfold
      refine ih (sg :: acc) st (fun s hs => ?_) hfold
      rcases List.mem_cons.1 hs with h | h
      · exact h ▸ hmem
      · exact hacc s h
    · rw [show insertSpoofSignal acc sg = none from by
        simp [insertSpoofSignal, hmem]] at hfold
      rw [foldl_insertSpoofSignal_none] at hfold
      exact Option.noConfusion hfold

theorem flagMessage_closed (cur : AisMessage) (prev : Option AisMessage)
    (t : String) (h : t ∈ flagMessage cur prev) :
    t ∈ spoofAnomalyTypeValues := by
  have hone : ∀ (b : Bool) (x : String), t ∈ (if b = true then [x] else []) → t = x := by
    intro b x hx
    split at hx
    · simpa using hx
    · simp at hx
  unfold flagMessage at h
  rcases prev with _ | p
  · simp only [List.mem_append] at h
    rcases h with (h | h) | h
    · simp at h
    · have := hone _ _ h; simp [spoofAnomalyTypeValues, this]
    · have := hone _ _ h; simp [spoofAnomalyTypeValues, this]
  · simp only [List.mem_append] at h
    rcases h with ((h | h) | h) | h
    · have := hone _ _ h; simp [spoofAnomalyTypeValues, this]
    · have := hone _ _ h; simp [spoofAnomalyTypeValues, this]
    · have := hone _ _ h; simp [spoofAnomalyTypeValues, this]
    · have := hone _ _ h; simp [spoofAnomalyTypeValues, this]

theorem flagMessage_onto (t : String) (h : t ∈ spoofAnomalyTypeValues) :
    ∃ cur prev, t ∈ flagMessage cur prev := by
  refine ⟨sampleSpoofCur, some sampleSpoofPrev, ?_⟩
  have h1 : impossibleSpeedFlag sampleSpoofPrev sampleSpoofCur = true := by
    norm_num [impossibleSpeedFlag, planarDistanceNm, speedCeilingKnots,
      sampleSpoofCur, sampleSpoofPrev]
  have h2 : positionJumpFlag sampleSpoofPrev sampleSpoofCur = true := by
    norm_num [positionJumpFlag, planarDistanceNm, maxPlausibleJumpNm,
      sampleSpoofCur, sampleSpoofPrev]
  have h3 : sartOnNonSarFlag sampleSpoofCur = true := by
    norm_num [sartOnNonSarFlag, sampleSpoofCur]
  have h4 : noIdentityFlag sampleSpoofCur = true := by
    norm_num [noIdentityFlag, sampleSpoofCur]
  have hval : flagMessage sampleSpoofCur (some sampleSpoofPrev)
      = ["impossible_speed", "position_jump", "sart_on_non_sar", "no_identity"] := by
    simp [flagMessage, h1, h2, h3, h4]
  rw [hval]
  simp only [spoofAnomalyTypeValues, List.mem_cons, List.not_mem_nil, or_false] at h
  rcases h with h | h | h | h <;> simp [h]

/-- **C5**: the anomaly type of every stored spoof signal belongs to the
closed four-element set {impossible_speed, sart_on_non_sar,
position_jump, no_identity} — the `spoof_anomaly_type` enum rejects
anything else — and those four values correspond one-for-one to the
four Anomaly Flagger rules: every emitted type is in the set, and every
value of the set is emitted by some message. -/
theorem spoof_anomaly_type_closed (sigs : List SpoofSignal)
    (st : List SpoofSignal) (cur : AisMessage) (prev : Option AisMessage)
    (t : String) :
    (insertSpoofSignals sigs = some st →
      ∀ s ∈ st, s.anomalyType ∈ spoofAnomalyTypeValues)
    ∧ (t ∈ flagMessage cur prev → t ∈ spoofAnomalyTypeValues)
    ∧ (t ∈ spoofAnomalyTypeValues → ∃ c p, t ∈ flagMessage c p)
    ∧ spoofAnomalyTypeValues.length = 4
    ∧ spoofAnomalyTypeValues.Nodup :=
  ⟨fun h => insertSpoofSignals_closed sigs st h,
   fun h => flagMessage_closed cur prev t h,
   fun h => flagMessage_onto t h,
   rfl, by decide⟩

/-- Concrete instantiation of `spoof_anomaly_type_closed`: a singleton
batch stores only enum values. -/
theorem spoof_anomaly_type_closed_witness :
    ∀ s ∈ [sampleSpoofSignal], s.anomalyType ∈ spoofAnomalyTypeValues :=
  (spoof_anomaly_type_closed [sampleSpoofSignal] [sampleSpoofSignal]
    sampleSpoofCur none "position_jump").1 (by rfl)

theorem find?_map_update (t : List VesselRec) (v : VesselRec) (m : Nat)
    (hm : m ≠ v.mmsi) :
    (t.map (fun w => if w.mmsi = v.mmsi then v else w)).find?
        (fun w => decide (w.mmsi = m))
      = t.find? (fun w => decide (w.mmsi = m)) := by
  induction t with
  | nil => rfl
  | cons w t ih =>
    rw [List.map_cons]
    by_cases hw : w.mmsi = v.mmsi
    · rw [if_pos hw]
      rw [List.find?_cons_of_neg _ (by simpa using fun hc => hm hc.symm),
        List.find?_cons_of_neg _
          (by simpa using fun hc => hm ((hw.symm.trans hc).symm)), ih]
    · rw [if_neg hw]
      by_cases hwm : w.mmsi = m
      · rw [List.find?_cons_of_pos _ (by simpa using hwm),
          List.find?_cons_of_pos _ (by simpa using hwm)]
      · rw [List.find?_cons_of_neg _ (by simpa using hwm),
          List.find?_cons_of_neg _ (by simpa using hwm), ih]

theorem lookup_mapSet (s : List VesselRec) (v : VesselRec) (m : Nat) :
    lookupVessel (mapSet s v) m
      = if m = v.mmsi then some v else lookupVessel s m := by
  unfold mapSet lookupVessel
  by_cases hany : s.any (fun w => decide (w.mmsi = v.mmsi)) = true
  · rw [if_pos hany]
    by_cases hm : m = v.mmsi
    · subst hm
      rw [if_pos rfl]
      induction s with
      | nil => simp at hany
      | cons w t ih =>
        by_cases hw : w.mmsi = v.mmsi
        · simp [List.find?_cons, hw]
        · have hany' : t.any (fun w => decide (w.mmsi = v.mmsi)) = true := by
            simpa [List.any_cons, hw] using hany
          simp [List.find?_cons, hw, ih hany']
    · rw [if_neg hm]
      exact find?_map_update s v m hm
  · rw [if_neg hany]
    simp only [List.any_eq_true, decide_eq_true_eq, not_exists, not_and] at hany
    rw [List.find?_append]
    by_cases hm : m = v.mmsi
    · subst hm
      have hnone : s.find? (fun w => decide (w.mmsi = v.mmsi)) = none := by
        rw [List.find?_eq_none]
        intro w hw
        simpa using fun hc => (hany w hw) hc
      rw [hnone, if_pos rfl]
      simp [List.find?_cons]
    · rw [if_neg hm]
      have hone : ([v].find? (fun w => decide (w.mmsi = m))) = none := by
        rw [List.find?_eq_none]
        intro w hw
        rw [List.mem_singleton] at hw
        subst hw
        simpa using fun hc => hm hc.symm
      rw [hone]
      cases hcase : s.find? (fun w => decide (w.mmsi = m)) <;> rfl

theorem mmsiKeys_mapSet_of_any (s : List VesselRec) (v : VesselRec)
    (hany : s.any (fun w => decide (w.mmsi = v.mmsi)) = true) :
    mmsiKeys (mapSet s v) = mmsiKeys s := by
  unfold mapSet mmsiKeys
  rw [if_pos hany, List.map_map]
  refine List.map_congr_left fun w _ => ?_
  by_cases hw : w.mmsi = v.mmsi <;> simp [Function.comp, hw]

theorem keysNodup_mapSet (s : List VesselRec) (v : VesselRec)
    (h : KeysNodup s) : KeysNodup (mapSet s v) := by
  unfold KeysNodup
  by_cases hany : s.any (fun w => decide (w.mmsi = v.mmsi)) = true
  · rw [mmsiKeys_mapSet_of_any s v hany]
    exact h
  · unfold mapSet
    rw [if_neg hany]
    unfold mmsiKeys
    rw [List.map_append]
    rw [List.nodup_append]
    refine ⟨h, List.nodup_singleton _, ?_⟩
    intro k hk hksing
    simp only [List.map_cons, List.map_nil, List.mem_singleton] at hksing
    subst hksing
    simp only [List.any_eq_true, decide_eq_true_eq, not_exists, not_and] at hany
    obtain ⟨w, hw, hwk⟩ := List.mem_map.1 hk
    exact hany w hw hwk

theorem keysNodup_batchUpdate (s : List VesselRec) (b : List VesselRec)
    (h : KeysNodup s) : KeysNodup (batchUpdateVessels s b) := by
  unfold batchUpdateVessels
  induction b generalizing s with
  | nil => exact h
  | cons v t ih => exact ih (mapSet s v) (keysNodup_mapSet s v h)

theorem lastInBatch_foldl (b : List VesselRec) (m : Nat)
    (acc : Option VesselRec) :
    b.foldl (fun acc v => if v.mmsi = m then some v else acc) acc
      = (b.foldl (fun acc v => if v.mmsi = m then some v else acc) none).elim
          acc some := by
  induction b generalizing acc with
  | nil => rfl
  | cons u t ih =>
    rw [List.foldl_cons, List.foldl_cons, ih, ih (if u.mmsi = m then some u else none)]
    cases htail : t.foldl (fun acc v => if v.mmsi = m then some v else acc) none with
    | some w => simp
    | none =>
      by_cases hu : u.mmsi = m <;> simp [hu]

theorem lookup_batchUpdate (b : List VesselRec) (s : List VesselRec) (m : Nat) :
    lookupVessel (batchUpdateVessels s b) m
      = (lastInBatch b m).elim (lookupVessel s m) some := by
  induction b generalizing s with
  | nil => rfl
  | cons v t ih =>
    have hstep : batchUpdateVessels s (v :: t) = batchUpdateVessels (mapSet s v) t :=
      rfl
    rw [hstep, ih (mapSet s v), lookup_mapSet]
    have hfold : lastInBatch (v :: t) m
        = (lastInBatch t m).elim (if v.mmsi = m then some v else none) some := by
      unfold lastInBatch
      rw [List.foldl_cons]
      exact lastInBatch_foldl t m _
    rw [hfold]
    cases htail : lastInBatch t m with
    | some w => simp [Option.elim]
    | none =>
      simp only [Option.elim]
      by_cases hv : v.mmsi = m
      · rw [if_pos hv.symm, if_pos hv]
      · rw [if_neg (fun hc => hv hc.symm), if_neg hv]

/-- **C9**: the store's batch update is a keyed overwrite with a frame
property: after `batchUpdateVessels` the entry of every mmsi carried by
the batch is the batch's last record for that mmsi — unconditionally,
with no timestamp comparison, so an older sample replaces a newer
one — every mmsi not in the batch keeps its previous entry untouched,
`updateVessel` is the single-record case, the one-entry-per-mmsi
invariant is preserved, and `vesselCount` equals the number of distinct
mmsis in the map. -/
theorem vessel_store_batch_update_frame (s b : List VesselRec)
    (v : VesselRec) (m : Nat) (h : KeysNodup s) :
    KeysNodup (batchUpdateVessels s b)
    ∧ lookupVessel (updateVessel s v) m
        = (if m = v.mmsi then some v else lookupVessel s m)
    ∧ (∀ w, lastInBatch b m = some w →
        lookupVessel (batchUpdateVessels s b) m = some w)
    ∧ (lastInBatch b m = none →
        lookupVessel (batchUpdateVessels s b) m = lookupVessel s m)
    ∧ vesselCount (batchUpdateVessels s b)
        = (mmsiKeys (batchUpdateVessels s b)).toFinset.card := by
  have hnd := keysNodup_batchUpdate s b h
  refine ⟨hnd, lookup_mapSet s v m, ?_, ?_, ?_⟩
  · intro w hw
    rw [lookup_batchUpdate, hw]
    rfl
  · intro hw
    rw [lookup_batchUpdate, hw]
    rfl
  · rw [List.toFinset_card_of_nodup hnd]
    unfold vesselCount mmsiKeys
    rw [List.length_map]

/-- Concrete instantiation of `vessel_store_batch_update_frame`: the
older batch sample replaces vessel 1's newer entry, and vessel 2 is
untouched. -/
theorem vessel_store_batch_update_frame_witness :
    lookupVessel (batchUpdateVessels [sampleStoredVessel, sampleOtherVessel]
        [sampleOlderVessel]) 1 = some sampleOlderVessel
    ∧ lookupVessel (batchUpdateVessels [sampleStoredVessel, sampleOtherVessel]
        [sampleOlderVessel]) 2
      = lookupVessel [sampleStoredVessel, sampleOtherVessel] 2 :=
  ⟨(vessel_store_batch_update_frame [sampleStoredVessel, sampleOtherVessel]
      [sampleOlderVessel] sampleOlderVessel 1 (by unfold KeysNodup; decide)).2.2.1
      sampleOlderVessel (by rfl),
   (vessel_store_batch_update_frame [sampleStoredVessel, sampleOtherVessel]
      [sampleOlderVessel] sampleOlderVessel 2 (by unfold KeysNodup; decide)).2.2.2.1
      (by rfl)⟩

theorem isInfixB_iff (q s : List Char) : isInfixB q s = true ↔ q <:+: s := by
  induction s with
  | nil =>
    simp only [isInfixB, List.isEmpty_iff, List.infix_nil]
  | cons c t ih =>
    simp only [isInfixB, Bool.or_eq_true, List.isPrefixOf_iff_prefix, ih,
      List.infix_cons_iff]

theorem digitChar_isDigit : ∀ m, m < 10 → (Nat.digitChar m).isDigit = true := by
  decide

theorem toDigitsCore_isDigit (fuel : Nat) :
    ∀ (n : Nat) (acc : List Char), (∀ c ∈ acc, c.isDigit = true) →
      ∀ c ∈ Nat.toDigitsCore 10 fuel n acc, c.isDigit = true := by
  induction fuel with
  | zero =>
    intro n acc hacc c hc
    exact hacc c hc
  | succ fuel ih =>
    intro n acc hacc c hc
    rw [Nat.toDigitsCore] at hc
    have hdig : (Nat.digitChar (n % 10)).isDigit = true :=
      digitChar_isDigit _ (Nat.mod_lt _ (by norm_num))
    by_cases hz : n / 10 = 0
    · rw [if_pos hz] at hc
      rcases List.mem_cons.1 hc with h | h
      · exact h ▸ hdig
      · exact hacc c h
    · rw [if_neg hz] at hc
      refine ih (n / 10) (Nat.digitChar (n % 10) :: acc) ?_ c hc
      intro d hd
      rcases List.mem_cons.1 hd with h | h
      · exact h ▸ hdig
      · exact hacc d h

theorem mmsiDigits_isDigit (m : Nat) :
    ∀ c ∈ mmsiDigits m, c.isDigit = true :=
  toDigitsCore_isDigit (m + 1) m [] (by simp)

theorem toLower_eq_self_of_isDigit (c : Char) (h : c.isDigit = true) :
    Char.toLower c = c := by
  have hv : c.val ≤ 57 := by
    simp [Char.isDigit] at h
    exact h.2
  have hn : c.toNat ≤ 57 := by
    simp [UInt32.le_def] at hv
    simpa [Char.toNat] using hv
  have hcond : ¬(c.toNat ≥ 65 ∧ c.toNat ≤ 90) := by omega
  simp [Char.toLower, hcond]

theorem toLower_eq_self_of_isDigit_toLower (c : Char)
    (h : (Char.toLower c).isDigit = true) : Char.toLower c = c := by
  by_cases hc : c.toNat ≥ 65 ∧ c.toNat ≤ 90
  · exfalso
    have h' : (Char.ofNat (c.toNat + 32)).isDigit = true := by
      simpa [Char.toLower, hc] using h
    rcases hc with ⟨h1, h2⟩
    generalize hg : c.toNat = n at h1 h2 h'
    interval_cases n <;> revert h' <;> decide
  · simp [Char.toLower, hc]

theorem toLowerStr_infix_mmsiDigits (q : List Char) (m : Nat) :
    toLowerStr q <:+: mmsiDigits m ↔ q <:+: mmsiDigits m := by
  constructor
  · intro h
    have hfx : ∀ c ∈ q, Char.toLower c = c := by
      intro c hc
      refine toLower_eq_self_of_isDigit_toLower c ?_
      exact mmsiDigits_isDigit m _ (h.subset (List.mem_map_of_mem _ hc))
    have : toLowerStr q = q := by
      unfold toLowerStr
      rw [List.map_congr_left fun a ha => hfx a ha]
      exact List.map_id q
    rwa [this] at h
  · intro h
    have hfx : ∀ c ∈ q, Char.toLower c = c := by
      intro c hc
      exact toLower_eq_self_of_isDigit c (mmsiDigits_isDigit m _ (h.subset hc))
    have : toLowerStr q = q := by
      unfold toLowerStr
      rw [List.map_congr_left fun a ha => hfx a ha]
      exact List.map_id q
    rwa [this]

theorem vesselMatchesSearch_iff (query : List Char) (v : VesselRec) :
    vesselMatchesSearch (toLowerStr query) v = true
      ↔ (query <:+: mmsiDigits v.mmsi
          ∨ ∃ nm, v.name = some nm ∧ toLowerStr query <:+: toLowerStr nm) := by
  unfold vesselMatchesSearch
  rw [Bool.or_eq_true, isInfixB_iff, toLowerStr_infix_mmsiDigits]
  constructor
  · rintro (h | h)
    · exact Or.inl h
    · right
      cases hname : v.name with
      | none => rw [hname] at h; exact absurd h (by simp)
      | some nm =>
        rw [hname] at h
        exact ⟨nm, rfl, (isInfixB_iff _ _).1 h⟩
  · rintro (h | ⟨nm, hnm, h⟩)
    · exact Or.inl h
    · right
      rw [hnm]
      exact (isInfixB_iff _ _).2 h

theorem searchMatchSet_mem (query : List Char) (vs : List VesselRec)
    (v : VesselRec) (hq : query ≠ []) (hnd : KeysNodup vs) (hv : v ∈ vs) :
    ∀ s, searchMatchSet query vs = some s →
      (v.mmsi ∈ s ↔ vesselMatchesSearch (toLowerStr query) v = true) := by
  intro s hs
  unfold searchMatchSet at hs
  rw [if_neg hq] at hs
  injection hs with hs
  subst hs
  rw [List.mem_toFinset, List.mem_map]
  constructor
  · rintro ⟨w, hw, hwm⟩
    rw [List.mem_filter] at hw
    have : w = v := List.inj_on_of_nodup_map hnd hw.1 hv hwm
    exact this ▸ hw.2
  · intro h
    exact ⟨v, List.mem_filter.2 ⟨hv, h⟩, rfl⟩

theorem filteredCount_eq (query : List Char) (vs : List VesselRec)
    (hq : query ≠ []) (hnd : KeysNodup vs) :
    filteredCount query vs
      = (vs.filter (vesselMatchesSearch (toLowerStr query))).length := by
  unfold filteredCount searchMatchSet
  rw [if_neg hq]
  have hsub : ((vs.filter (vesselMatchesSearch (toLowerStr query))).map
      (fun v => v.mmsi)).Nodup :=
    List.Nodup.sublist (List.Sublist.map _ (List.filter_sublist vs)) hnd
  show ((vs.filter (vesselMatchesSearch (toLowerStr query))).map
      (fun v => v.mmsi)).toFinset.card
    = (vs.filter (vesselMatchesSearch (toLowerStr query))).length
  rw [List.toFinset_card_of_nodup hsub, List.length_map]

/-- **C10**: map search filtering is exact substring matching.  With a
non-empty query (and the store's one-entry-per-mmsi invariant), a
vessel of the store passes the layer filter (risk/fusion filter `all`)
iff the decimal string of its mmsi contains the query or its name
case-insensitively contains the query; `filteredCount` equals the
number of passing vessels; and with an empty query the match set is
absent, every vessel passes, and `filteredCount` is the total vessel
count. -/
theorem search_filter_substring (query : List Char) (vs : List VesselRec)
    (v : VesselRec) (crit lowc : Finset Nat) :
    (query ≠ [] → KeysNodup vs → v ∈ vs →
      (getFilterValue (searchMatchSet query vs) RiskFusionFilter.all crit lowc v = 1
        ↔ (query <:+: mmsiDigits v.mmsi
            ∨ ∃ nm, v.name = some nm ∧ toLowerStr query <:+: toLowerStr nm)))
    ∧ (query ≠ [] → KeysNodup vs →
        filteredCount query vs
          = (vs.filter (vesselMatchesSearch (toLowerStr query))).length)
    ∧ (query = [] →
        filteredCount query vs = vesselCount vs
        ∧ getFilterValue (searchMatchSet query vs) RiskFusionFilter.all crit lowc v
            = 1) := by
  refine ⟨fun hq hnd hv => ?_, fun hq hnd => filteredCount_eq query vs hq hnd,
    fun hq => ?_⟩
  · cases hset : searchMatchSet query vs with
    | none =>
      exfalso
      unfold searchMatchSet at hset
      rw [if_neg hq] at hset
      exact Option.noConfusion hset
    | some s =>
      have hmem := searchMatchSet_mem query vs v hq hnd hv s hset
      rw [← vesselMatchesSearch_iff, ← hmem]
      unfold getFilterValue
      by_cases hin : v.mmsi ∈ s
      · simp [hin]
      · simp [hin]
  · have hset : searchMatchSet query vs = none := by
      unfold searchMatchSet
      rw [if_pos hq]
    constructor
    · unfold filteredCount
      rw [hset]
      rfl
    · rw [hset]
      unfold getFilterValue
      simp

/-- Concrete instantiation of `search_filter_substring`: in a singleton
store, the query "44" passes the filter for mmsi 2440 because "2440"
contains "44". -/
theorem search_filter_substring_witness :
    getFilterValue (searchMatchSet ['4', '4'] [sampleSearchVessel])
        RiskFusionFilter.all ∅ ∅ sampleSearchVessel = 1 :=
  (search_filter_substring ['4', '4'] [sampleSearchVessel] sampleSearchVessel
      ∅ ∅).1 (by decide) (by unfold KeysNodup; decide) (by decide)
    |>.2 (Or.inl (by decide))

end Poseidon

